import Mathlib

/-!
Shallow embedding of `landslideml` (the `MlModel` class of
`src/landslideml/model.py`) and proofs about its configuration,
reconfiguration, prediction and evaluation behaviour.

The dynamically typed values of Python are embedded as the inductive `Value`;
raised exceptions become `Except Err`; the `MlModel` instance state is a
record threaded explicitly through the methods.  The external scikit-learn
collaborators (classifier construction, fit, predict, `train_test_split`,
`classification_report`) are out of scope per the specification and are
modelled as deterministic computable functions at the level of their
documented contracts (sizes, determinism, not-fitted failure).
-/

namespace LandslideML

/-- A Python runtime value, restricted to the shapes this module handles. -/
inductive Value where
  | int (n : Int)
  | float (q : ℚ)
  | str (s : String)
  | bool (b : Bool)
  | list (xs : List Value)
  | none

/-- The Python test `x is True`: identity test against the singleton `True`. -/
def Value.isTrue : Value → Bool
  | .bool true => true
  | _ => false

/-- The Python test `isinstance(x, str)`. -/
def Value.isStr : Value → Bool
  | .str _ => true
  | _ => false

/-- The underlying strings of a list of string values. -/
def strNames (fl : List Value) : List String :=
  fl.filterMap (fun v => match v with | .str s => some s | _ => Option.none)

/-- The exceptions this module can raise (`ValueError`, `TypeError`,
`FileNotFoundError`, `KeyError` from the dict lookup, and the scikit-learn
`NotFittedError`). -/
inductive Err where
  | valueError (msg : String)
  | typeError (msg : String)
  | fileNotFound (msg : String)
  | keyError (msg : String)
  | notFitted
  deriving DecidableEq, Repr

/-- The three classifier families dispatched on in `__initialize_model`. -/
inductive ModelType where
  | randomForest
  | svm
  | gbm
  deriving DecidableEq, Repr

/-- Modelled from the spec: the constant `VALID_MODELS` lives in the package
`__init__` file, which is not among the sources; the spec fixes the set of
model kinds to `{RandomForest, SVM, GBM}`, matching the three branches of
`__initialize_model`. -/
def VALID_MODELS : List String := ["RandomForest", "SVM", "GBM"]

/-- Accepted hyperparameter names of the external scikit-learn classifiers,
as reported by `get_params()` (external collaborator; abridged to commonly
used names — the exact extent of the list is irrelevant to the proofs). -/
def acceptedParams : ModelType → List String
  | .randomForest =>
      ["n_estimators", "criterion", "max_depth", "min_samples_split",
       "min_samples_leaf", "max_features", "bootstrap", "oob_score",
       "n_jobs", "random_state", "verbose", "warm_start"]
  | .svm =>
      ["C", "kernel", "degree", "gamma", "coef0", "shrinking", "probability",
       "tol", "cache_size", "class_weight", "verbose", "max_iter",
       "random_state"]
  | .gbm =>
      ["loss", "learning_rate", "n_estimators", "subsample", "criterion",
       "min_samples_split", "min_samples_leaf", "max_depth", "init",
       "random_state", "max_features", "verbose", "warm_start"]

/-- A parsed CSV dataset: a header row of column names and data rows of
numeric cells (`pd.read_csv(filepath, header=0)`). -/
structure DataFrame where
  columns : List String
  rows : List (List ℚ)
  deriving DecidableEq, Repr

/-- The values of one named column of a dataset. -/
def DataFrame.colVals (df : DataFrame) (c : String) : List ℚ :=
  df.rows.map (fun r => r.getD (df.columns.indexOf c) 0)

/-- The row-wise restriction of a dataset to a list of named columns. -/
def featureMatrix (df : DataFrame) (cs : List String) : List (List ℚ) :=
  df.rows.map (fun r => cs.map (fun c => r.getD (df.columns.indexOf c) 0))

/-- Column projection `df[name]` (a pandas Series); `Option.none` models the
`KeyError` pandas raises for a missing column. -/
def DataFrame.col? (df : DataFrame) (c : String) : Option (List ℚ) :=
  if df.columns.contains c then some (df.colVals c)
  else Option.none

/-- Multi-column projection `df[cols]`; `Option.none` models the `KeyError`
pandas raises when any requested column is missing. -/
def DataFrame.select? (df : DataFrame) (cs : List String) : Option (List (List ℚ)) :=
  if cs.all (fun c => df.columns.contains c) then some (featureMatrix df cs)
  else Option.none

/-- The fragment of the file system the module touches: the CSV files that
exist, each with its parsed content. -/
structure Env where
  files : List (String × DataFrame)
  deriving DecidableEq, Repr

/-- `os.path.isfile(path)`. -/
def Env.isfile (e : Env) (p : String) : Bool :=
  (e.files.map Prod.fst).contains p

/-- `pd.read_csv(path, header=0)` on an existing file. -/
def Env.readCsv (e : Env) (p : String) : Option DataFrame :=
  e.files.lookup p

/-- The state of an external scikit-learn classifier: its family, its
constructor keyword arguments, and (once `fit` has run) the fitted data. -/
structure Classifier where
  kind : ModelType
  params : List (String × Value)
  fitted : Bool
  fitX : List (List ℚ)
  fitY : List ℚ

/-- External classifier construction (`RandomForestClassifier(**kwargs)`
etc.): scikit-learn rejects unknown keyword arguments with a `TypeError`
and yields an unfit estimator otherwise. -/
def mkClassifier (k : ModelType) (kwargs : List (String × Value)) :
    Except Err Classifier :=
  if kwargs.all (fun p => (acceptedParams k).contains p.1) then
    .ok { kind := k, params := kwargs, fitted := false, fitX := [], fitY := [] }
  else
    .error (.typeError "got an unexpected keyword argument")

/-- External `model.fit(x, y)`: records the training data and marks the
estimator fitted. -/
def Classifier.fit (c : Classifier) (x : List (List ℚ)) (y : List ℚ) :
    Classifier :=
  { c with fitted := true, fitX := x, fitY := y }

/-- External per-row prediction: an arbitrary but deterministic computable
function of the fitted state and the input row (the statistical internals
are out of scope per the specification). -/
def Classifier.predictRow (c : Classifier) (row : List ℚ) : ℚ :=
  c.fitY.getD ((row.foldl (fun a q => a + q.num.natAbs + q.den) 0) %
    (max 1 c.fitY.length)) 0

/-- External `model.predict(data)`: fails with `NotFittedError` on an unfit
estimator, otherwise returns one prediction per input row,
deterministically. -/
def Classifier.predictE (c : Classifier) (data : List (List ℚ)) :
    Except Err (List ℚ) :=
  if c.fitted then .ok (data.map c.predictRow) else .error .notFitted

/-- Number of test rows chosen by `train_test_split` for a float
`test_size`: `ceil(test_size * n)` (documented scikit-learn behaviour),
computed by integer ceiling division on the numerator and the denominator
of the fraction; `nTestOf_eq_ceil` below proves it equal to `⌈t * n⌉`. -/
def nTestOf (n : ℕ) (t : ℚ) : ℕ :=
  (Int.ediv (t.num * n + t.den - 1) t.den).toNat

/-- The seed-determined permutation of row indices used by
`train_test_split(random_state=seed)`; the exact shuffle is an external,
out-of-scope detail — what matters is that it is a permutation of
`[0, n)` fully determined by the seed. -/
def splitPerm (seed n : ℕ) : List ℕ :=
  (List.range n).rotate seed

/-- Select the entries of `xs` at the given indices. -/
def pick [Inhabited α] (idx : List ℕ) (xs : List α) : List α :=
  idx.map (fun i => xs.getD i default)

/-- External `train_test_split(x, y, test_size=t, random_state=seed)`:
the first `nTestOf` indices of the seed-determined permutation form the
test split, the rest the train split; returns
`(x_train, x_test, y_train, y_test)`.  Per its documented validation, the
split raises a `ValueError` when the resulting train set would be empty,
i.e. when `ceil(t * n) = n` — which happens for any fraction above
`(n-1)/n` and for every fraction in `(0,1)` on a one-row dataset. -/
def trainTestSplit (x : List (List ℚ)) (y : List ℚ) (t : ℚ) (seed : ℕ) :
    Except Err (List (List ℚ) × List (List ℚ) × List ℚ × List ℚ) :=
  let n := x.length
  let nt := nTestOf n t
  let perm := splitPerm seed n
  if n - nt = 0 then
    .error (.valueError "the resulting train set will be empty")
  else
    .ok (pick (perm.drop nt) x, pick (perm.take nt) x,
         pick (perm.drop nt) y, pick (perm.take nt) y)

/-- `MlModel.__verify_input(model_type, filepath, target, features,
test_size)`, with each guard in source order. -/
def verifyInput (e : Env) (model_type filepath target features test_size : Value) :
    Except Err Unit := do
  if !(match model_type with
       | .str s => VALID_MODELS.contains s
       | _ => false) then
    throw (.valueError "Model type not supported.")
  match filepath with
  | .str p =>
      if !(e.isfile p) then
        throw (.fileNotFound ("File " ++ p ++ " does not exist."))
  | _ => throw (.typeError "isfile: path should be string")
  if !(match target with | .str _ => true | _ => false) then
    throw (.typeError "Target must be a string.")
  match features with
  | .list fs =>
      if !(fs.all Value.isStr) then
        throw (.typeError "Features must be a list of strings.")
  | _ => throw (.typeError "Features must be a list.")
  match test_size with
  | .float t =>
      if t ≤ 0 ∨ 1 ≤ t then
        throw (.valueError "Test size must be between 0 and 1.")
  | _ => throw (.typeError "Test size must be a float.")

/-- `MlModel.__initialize_model`, dispatching on `self.type`. -/
def initializeModel (type_ : String) (kwargs : List (String × Value)) :
    Except Err Classifier :=
  if type_ = "RandomForest" then mkClassifier .randomForest kwargs
  else if type_ = "SVM" then mkClassifier .svm kwargs
  else if type_ = "GBM" then mkClassifier .gbm kwargs
  else .error (.valueError "Model type not supported.")

/-- The instance state of an `MlModel`, field for field. -/
structure MlModel where
  filepath : String
  type : String
  target_column : String
  features_list : List String
  test_size : ℚ
  kwargs : List (String × Value)
  dataset : DataFrame
  x_train : List (List ℚ)
  x_test : List (List ℚ)
  y_train : List ℚ
  y_test : List ℚ
  model : Classifier
  y_pred : Option (List ℚ)
  report : Option (List (String × ℚ))
  last_prediction : Option (List ℚ)

/-- `MlModel.__init__`: verify the inputs, store the configuration, read the
`kwargs` entry out of the collected keyword arguments (a subscript lookup,
a `KeyError` when absent), load the dataset, split it with seed 42, and
instantiate the unfit classifier.  `outerKw` is the collected `**kwargs`
mapping of the constructor call. -/
def MlModel.init (e : Env) (filepath model_type target_column features_list
    test_size : Value) (outerKw : List (String × List (String × Value))) :
    Except Err MlModel := do
  verifyInput e model_type filepath target_column features_list test_size
  match filepath, model_type, target_column, features_list, test_size with
  | .str fp, .str mt, .str tc, .list fl, .float ts => do
      let featureNames := strNames fl
      let kw ← match outerKw.lookup "kwargs" with
        | some d => pure d
        | Option.none => throw (.keyError "kwargs")
      let ds ← match e.readCsv fp with
        | some d => pure d
        | Option.none => throw (.fileNotFound fp)
      let x ← match ds.select? featureNames with
        | some x => pure x
        | Option.none => throw (.keyError "features not in dataset")
      let y ← match ds.col? tc with
        | some y => pure y
        | Option.none => throw (.keyError tc)
      let (xtr, xte, ytr, yte) ← trainTestSplit x y ts 42
      let model ← initializeModel mt kw
      .ok { filepath := fp, type := mt, target_column := tc,
            features_list := featureNames, test_size := ts, kwargs := kw,
            dataset := ds, x_train := xtr, x_test := xte, y_train := ytr,
            y_test := yte, model := model, y_pred := Option.none,
            report := Option.none, last_prediction := Option.none }
  | _, _, _, _, _ => throw (.typeError "unreachable after verification")

/-- Python `dict.update`: existing keys are overwritten in place, new keys
are appended in the order of the update. -/
def dictUpdate (d upd : List (String × Value)) : List (String × Value) :=
  d.map (fun p => match upd.lookup p.1 with
                  | some v => (p.1, v)
                  | Option.none => p) ++
  upd.filter (fun p => (d.lookup p.1).isNone)

/-- The keys of `kwargs` rejected by `setup`: those not among
`self.model.get_params()`, whose key set is the accepted parameter set of
the kind of the classifier. -/
def offendingKeys (m : MlModel) (kwargs : List (String × Value)) : List String :=
  (kwargs.filter (fun p => !(acceptedParams m.model.kind).contains p.1)).map
    Prod.fst

/-- `MlModel.setup(**kwargs)`: reject unknown hyperparameter names (naming
them all) before any mutation; otherwise merge the kwargs, rebuild the
classifier, fit it on the train split and predict the test split. -/
def MlModel.setup (m : MlModel) (kwargs : List (String × Value)) :
    Except Err MlModel := do
  let invalid := offendingKeys m kwargs
  if invalid ≠ [] then
    throw (.valueError ("Invalid kwargs found: " ++
      String.intercalate ", " invalid))
  let newKwargs := dictUpdate m.kwargs kwargs
  let model ← initializeModel m.type newKwargs
  let fitted := model.fit m.x_train m.y_train
  let ypred ← fitted.predictE m.x_test
  .ok { m with kwargs := newKwargs, model := fitted, y_pred := some ypred }

/-- External `classification_report(y_true, y_pred, output_dict=True)`:
a deterministic mapping computed from the two label vectors (the metric
internals are out of scope; the accuracy entry stands for the report). -/
def classificationReport (yTrue yPred : List ℚ) : List (String × ℚ) :=
  [("accuracy",
    ((List.zip yTrue yPred).countP (fun p => p.1 == p.2) : ℚ) /
      (max 1 yTrue.length : ℕ))]

/-- `MlModel.evaluate_model(*, plot=False)` with `plot` already bound:
returns the updated state, whether the fallback warning was emitted,
whether the report was printed (`plot is True`), and the returned report. -/
def MlModel.evaluate_model (m : MlModel) (plot : Value) :
    Except Err (MlModel × Bool × Bool × List (String × ℚ)) := do
  let (m1, warned) ←
    match m.y_pred with
    | Option.none => do
        let yp ← m.model.predictE m.x_test
        pure ({ m with y_pred := some yp }, true)
    | some _ => pure (m, false)
  let printed := plot.isTrue
  let rep := classificationReport m1.y_test (m1.y_pred.getD [])
  .ok ({ m1 with report := some rep }, warned, printed, rep)

/-- The call protocol of `evaluate_model(self, *, plot=False)`: an unknown
keyword raises `TypeError` before the body runs; `plot` defaults to
`False`. -/
def MlModel.evaluateModelCall (m : MlModel) (kwargs : List (String × Value)) :
    Except Err (MlModel × Bool × Bool × List (String × ℚ)) := do
  if kwargs.any (fun p => p.1 ≠ "plot") then
    throw (.typeError "evaluate_model() got an unexpected keyword argument")
  m.evaluate_model ((kwargs.lookup "plot").getD (.bool false))

/-- `MlModel.predict(data)`: the underlying predict runs twice, once for the
`last_prediction` cache and once for the return value. -/
def MlModel.predict (m : MlModel) (data : List (List ℚ)) :
    Except Err (MlModel × List ℚ) := do
  let p1 ← m.model.predictE data
  let m1 := { m with last_prediction := some p1 }
  let p2 ← m1.model.predictE data
  .ok (m1, p2)

/-- Modelled from the spec: `save_model` is absent from the sources (it is
called in `examples/workflow_gbm.py` but defined in the missing reader
module); per the spec it serializes the entire Manager state to a single
opaque archive. -/
structure Archive where
  payload : MlModel

/-- Modelled from the spec: `save_model(path)` writes the whole Manager
state as one opaque blob. -/
def save_model (m : MlModel) : Archive :=
  ⟨m⟩

/-- Modelled from the spec: `load_model(path)` fully reconstructs the
Manager instance from an archive produced by `save_model`. -/
def load_model (a : Archive) : MlModel :=
  a.payload

/-! Concrete fixtures used by the witness theorems: a five-row dataset with
two feature columns and a label column. -/

/-- A concrete parsed CSV dataset for witnesses. -/
def dfW : DataFrame :=
  { columns := ["f1", "f2", "label"],
    rows := [[1, 2, 0], [2, 3, 1], [3, 4, 0], [4, 5, 1], [5, 6, 1]] }

/-- A file system containing exactly the witness dataset. -/
def envW : Env :=
  { files := [("data.csv", dfW)] }

/-- A concrete successful construction (`test_size=0.2`, two features). -/
def initW : Except Err MlModel :=
  MlModel.init envW (.str "data.csv") (.str "RandomForest") (.str "label")
    (.list [.str "f1", .str "f2"]) (.float (mkRat 1 5)) [("kwargs", [])]

/-- The constructed witness model (arbitrary default if construction
failed; `initW_ok` below shows it did not). -/
def mW : MlModel :=
  match initW with
  | .ok m => m
  | .error _ =>
      { filepath := "", type := "", target_column := "", features_list := [],
        test_size := 0, kwargs := [], dataset := ⟨[], []⟩, x_train := [],
        x_test := [], y_train := [], y_test := [], model :=
          ⟨.randomForest, [], false, [], []⟩, y_pred := Option.none,
        report := Option.none, last_prediction := Option.none }

/-- The witness model after a successful `setup` call. -/
def mWfit : MlModel :=
  match mW.setup [("n_estimators", .int 100), ("max_depth", .int 10)] with
  | .ok m => m
  | .error _ => mW

/-- The fitted witness model with its test-split prediction cleared. -/
def mWfitNoPred : MlModel :=
  { mWfit with y_pred := Option.none }

/-- The prediction of the fitted witness model on one external row. -/
def vW : List ℚ :=
  [[9, 9]].map mWfit.model.predictRow

/-- The fitted witness model after predicting on that external row. -/
def mWpred : MlModel :=
  { mWfit with last_prediction := some vW }

/-!
Theorems.  The first group is infrastructure: evaluation lemmas for the
`Except` monad, a success characterisation and an inversion principle for
`MlModel.init`, and the arithmetic of the `train_test_split` sizes.  The
claim theorems follow, each with its witness at the concrete fixtures.
-/

/-- Bind on an `ok` value reduces to the continuation. -/
theorem except_bind_ok (a : α) (f : α → Except ε β) :
    (Except.ok a >>= f : Except ε β) = f a := rfl

/-- Bind on a pure value reduces to the continuation. -/
theorem except_pure_bind (a : α) (f : α → Except ε β) :
    (pure a >>= f : Except ε β) = f a := rfl

/-- A successful association-list lookup means the key is among the keys. -/
theorem pairKeys_contains_of_lookup {β : Type} (l : List (String × β))
    (k : String) (v : β) (h : l.lookup k = some v) :
    (l.map Prod.fst).contains k = true := by
  induction l with
  | nil => simp [List.lookup] at h
  | cons a as ih =>
      obtain ⟨k', v'⟩ := a
      by_cases hk : k == k'
      · simp at hk
        subst hk
        simp
      · rw [List.lookup] at h
        simp only [hk] at h
        simp only [List.map_cons, List.contains_cons, hk, ih h, Bool.or_true]

/-- A path whose CSV is readable exists on the file system. -/
theorem readCsv_isfile (e : Env) (p : String) (d : DataFrame)
    (h : e.readCsv p = some d) : e.isfile p = true :=
  pairKeys_contains_of_lookup e.files p d h

/-- `__verify_input` accepts any well-typed argument tuple. -/
theorem verifyInput_ok (e : Env) (mt fp tc : String) (fl : List Value) (t : ℚ)
    (hmt : mt ∈ VALID_MODELS)
    (hfp : e.isfile fp = true)
    (hfl : ∀ v ∈ fl, v.isStr = true)
    (ht0 : 0 < t) (ht1 : t < 1) :
    verifyInput e (.str mt) (.str fp) (.str tc) (.list fl) (.float t) = .ok () := by
  unfold verifyInput
  simp [hmt, hfp, List.all_eq_true, not_le.mpr ht0, not_le.mpr ht1]
  rw [if_neg]
  · rfl
  · rintro ⟨x, hx, hfalse⟩
    rw [hfl x hx] at hfalse
    cases hfalse

/-- The length of the feature matrix equals the dataset row count. -/
theorem featureMatrix_length (ds : DataFrame) (cs : List String) :
    (featureMatrix ds cs).length = ds.rows.length := by
  simp [featureMatrix]

/-- When the implied train split is nonempty, `train_test_split` succeeds
and returns the seed-determined partition. -/
theorem trainTestSplit_ok (x : List (List ℚ)) (y : List ℚ) (t : ℚ)
    (seed n : ℕ) (hn : x.length = n) (hsp : nTestOf n t < n) :
    trainTestSplit x y t seed = .ok
      (pick ((splitPerm seed n).drop (nTestOf n t)) x,
       pick ((splitPerm seed n).take (nTestOf n t)) x,
       pick ((splitPerm seed n).drop (nTestOf n t)) y,
       pick ((splitPerm seed n).take (nTestOf n t)) y) := by
  subst hn
  unfold trainTestSplit
  rw [if_neg (by omega)]

/-- When the implied train split is empty (`ceil(t * n) = n`),
`train_test_split` raises its `ValueError`. -/
theorem trainTestSplit_empty_train (x : List (List ℚ)) (y : List ℚ) (t : ℚ)
    (seed : ℕ) (hsp : x.length ≤ nTestOf x.length t) :
    trainTestSplit x y t seed =
      .error (.valueError "the resulting train set will be empty") := by
  unfold trainTestSplit
  rw [if_pos (by omega)]

/-- Success characterisation of `__init__`: on well-typed inputs whose
columns exist in the dataset and whose test fraction leaves a nonempty
train split, construction returns exactly the state built from the
verified fields and the seed-42 split. -/
theorem init_ok (e : Env) (fp mt tc : String) (fl : List Value) (t : ℚ)
    (outerKw : List (String × List (String × Value)))
    (kw : List (String × Value)) (ds : DataFrame) (c : Classifier)
    (hmt : mt ∈ VALID_MODELS)
    (hfile : e.readCsv fp = some ds)
    (hfl : ∀ v ∈ fl, v.isStr = true)
    (ht0 : 0 < t) (ht1 : t < 1)
    (hkw : outerKw.lookup "kwargs" = some kw)
    (hsel : ∀ s ∈ strNames fl, ds.columns.contains s = true)
    (htc : ds.columns.contains tc = true)
    (hcl : initializeModel mt kw = .ok c)
    (hsp : nTestOf ds.rows.length t < ds.rows.length) :
    MlModel.init e (.str fp) (.str mt) (.str tc) (.list fl) (.float t) outerKw =
      .ok { filepath := fp, type := mt, target_column := tc,
            features_list := strNames fl, test_size := t, kwargs := kw,
            dataset := ds,
            x_train := pick ((splitPerm 42 ds.rows.length).drop (nTestOf ds.rows.length t)) (featureMatrix ds (strNames fl)),
            x_test := pick ((splitPerm 42 ds.rows.length).take (nTestOf ds.rows.length t)) (featureMatrix ds (strNames fl)),
            y_train := pick ((splitPerm 42 ds.rows.length).drop (nTestOf ds.rows.length t)) (ds.colVals tc),
            y_test := pick ((splitPerm 42 ds.rows.length).take (nTestOf ds.rows.length t)) (ds.colVals tc),
            model := c, y_pred := Option.none, report := Option.none,
            last_prediction := Option.none } := by
  have hv := verifyInput_ok e mt fp tc fl t hmt
    (readCsv_isfile e fp ds hfile) hfl ht0 ht1
  have hs : ds.select? (strNames fl) = some (featureMatrix ds (strNames fl)) := by
    unfold DataFrame.select?
    rw [if_pos]
    simpa using hsel
  have hc : ds.col? tc = some (ds.colVals tc) := by
    unfold DataFrame.col?
    rw [if_pos htc]
  have hts := trainTestSplit_ok (featureMatrix ds (strNames fl)) (ds.colVals tc)
    t 42 ds.rows.length (featureMatrix_length ds (strNames fl)) hsp
  unfold MlModel.init
  rw [hv, except_bind_ok]
  simp only [hkw, hfile, hs, hc, hts, hcl, except_bind_ok, except_pure_bind]

/-- Integer bounds pinning down the ceiling division inside `nTestOf`. -/
theorem nTestOf_int_bounds (n : ℕ) (t : ℚ) (ht : 0 < t) :
    t.num * n ≤ t.den * (nTestOf n t : ℤ) ∧
    (t.den : ℤ) * (nTestOf n t : ℤ) ≤ t.num * n + t.den - 1 := by
  have hq : (0 : ℤ) < t.den := by exact_mod_cast t.den_pos
  have hp : 0 < t.num := Rat.num_pos.mpr ht
  set a : ℤ := t.num * n + t.den - 1 with ha
  have ha0 : 0 ≤ a := by nlinarith [Int.natCast_nonneg n]
  have he : (t.den : ℤ) * (a.ediv t.den) + a.emod t.den = a :=
    Int.ediv_add_emod a t.den
  have hr0 : 0 ≤ a.emod t.den := Int.emod_nonneg a (by positivity)
  have hr1 : a.emod t.den < t.den := Int.emod_lt_of_pos a hq
  have hE : 0 ≤ a.ediv t.den := Int.ediv_nonneg ha0 (le_of_lt hq)
  have htn : ((nTestOf n t : ℕ) : ℤ) = a.ediv t.den := by
    simp only [nTestOf, ← ha]
    exact Int.toNat_of_nonneg hE
  constructor
  · rw [htn]; nlinarith
  · rw [htn]; nlinarith

/-- The test-split size approximates `t * n` from above, within one row. -/
theorem nTestOf_rat_bounds (n : ℕ) (t : ℚ) (ht : 0 < t) :
    t * n ≤ (nTestOf n t : ℚ) ∧ (nTestOf n t : ℚ) < t * n + 1 := by
  obtain ⟨h1, h2⟩ := nTestOf_int_bounds n t ht
  have hq : (0:ℚ) < (t.den:ℚ) := by exact_mod_cast t.den_pos
  have h1' : (t.num : ℚ) * n ≤ (t.den : ℚ) * (nTestOf n t : ℚ) := by
    exact_mod_cast h1
  have h2' : (t.den : ℚ) * (nTestOf n t : ℚ) ≤ (t.num : ℚ) * n + (t.den:ℚ) - 1 := by
    exact_mod_cast h2
  have ht' : (t.num : ℚ) = t * (t.den : ℚ) :=
    (div_eq_iff (ne_of_gt hq)).mp (Rat.num_div_den t)
  constructor
  · nlinarith
  · nlinarith

/-- For a test fraction below one, the test split never exceeds the data. -/
theorem nTestOf_le (n : ℕ) (t : ℚ) (ht0 : 0 < t) (ht1 : t < 1) :
    nTestOf n t ≤ n := by
  have h2 := (nTestOf_int_bounds n t ht0).2
  have hq : (0:ℤ) < (t.den : ℤ) := by exact_mod_cast t.den_pos
  have hqQ : (0:ℚ) < (t.den:ℚ) := by exact_mod_cast t.den_pos
  have hnum : (t.num : ℚ) = t * (t.den : ℚ) :=
    (div_eq_iff (ne_of_gt hqQ)).mp (Rat.num_div_den t)
  have hpqQ : (t.num : ℚ) < (t.den : ℚ) := by
    rw [hnum]
    nlinarith
  have hpq : t.num < (t.den : ℤ) := by exact_mod_cast hpqQ
  by_contra hcon
  push_neg at hcon
  have hcon' : ((n:ℤ) + 1) ≤ (nTestOf n t : ℤ) := by exact_mod_cast hcon
  have hn0 : (0:ℤ) ≤ (n:ℤ) := Int.natCast_nonneg n
  nlinarith

/-- The executable `nTestOf` computes the documented `ceil(t * n)`. -/
theorem nTestOf_eq_ceil (n : ℕ) (t : ℚ) (ht : 0 < t) :
    (nTestOf n t : ℤ) = ⌈t * (n : ℚ)⌉ := by
  obtain ⟨h1, h2⟩ := nTestOf_rat_bounds n t ht
  symm
  rw [Int.ceil_eq_iff]
  constructor
  · push_cast
    linarith
  · push_cast
    linarith

/-- `pick` returns one entry per requested index. -/
theorem pick_length [Inhabited α] (idx : List ℕ) (xs : List α) :
    (pick idx xs).length = idx.length := by
  simp [pick]

/-- The split permutation enumerates all row indices. -/
theorem splitPerm_length (seed n : ℕ) : (splitPerm seed n).length = n := by
  simp [splitPerm]

/-- A classifier fresh out of its constructor is unfit. -/
theorem mkClassifier_fitted (k : ModelType) (kwargs : List (String × Value))
    (c : Classifier) (h : mkClassifier k kwargs = .ok c) : c.fitted = false := by
  unfold mkClassifier at h
  split at h
  · cases h; rfl
  · cases h

/-- A classifier produced by `__initialize_model` is unfit. -/
theorem initializeModel_fitted (s : String) (kwargs : List (String × Value))
    (c : Classifier) (h : initializeModel s kwargs = .ok c) : c.fitted = false := by
  unfold initializeModel at h
  split at h
  · exact mkClassifier_fitted _ _ _ h
  split at h
  · exact mkClassifier_fitted _ _ _ h
  split at h
  · exact mkClassifier_fitted _ _ _ h
  · cases h

/-- Inversion for `__init__`: every successfully constructed instance has an
unfit classifier and empty prediction and last-prediction state. -/
theorem init_inv (e : Env) (fp mt tc fl ts : Value)
    (outerKw : List (String × List (String × Value))) (m : MlModel)
    (h : MlModel.init e fp mt tc fl ts outerKw = .ok m) :
    m.model.fitted = false ∧ m.y_pred = Option.none ∧
    m.last_prediction = Option.none := by
  unfold MlModel.init at h
  cases hv : verifyInput e mt fp tc fl ts with
  | error err => rw [hv] at h; cases h
  | ok u =>
      rw [hv, except_bind_ok] at h
      split at h
      · next fp' mt' tc' fl' ts' =>
          simp only [] at h
          split at h
          · next kw hkw =>
              split at h
              · next ds hds =>
                  simp only [except_pure_bind] at h
                  split at h
                  · next x hxsel =>
                      split at h
                      · next y hcol =>
                          cases hts : trainTestSplit x y ts' 42 with
                          | error err => rw [hts] at h; cases h
                          | ok q =>
                              obtain ⟨xtr, xte, ytr, yte⟩ := q
                              rw [hts, except_bind_ok] at h
                              cases hcl : initializeModel mt' kw with
                              | error err => rw [hcl] at h; cases h
                              | ok c =>
                                  rw [hcl, except_bind_ok] at h
                                  cases h
                                  exact ⟨initializeModel_fitted _ _ _ hcl, rfl, rfl⟩
                      · cases h
                  · cases h
              · cases h
          · cases h
      · cases h

/-- Keys of the update that the accepted-parameter set does not contain all
end up among the offending keys computed by `setup`. -/
theorem mem_offendingKeys (m : MlModel) (kwargs : List (String × Value))
    (k : String) (hk : k ∈ kwargs.map Prod.fst)
    (hna : (acceptedParams m.model.kind).contains k = false) :
    k ∈ offendingKeys m kwargs := by
  unfold offendingKeys
  obtain ⟨⟨k', v⟩, hmem, hfst⟩ := List.mem_map.mp hk
  subst hfst
  exact List.mem_map.mpr ⟨(k', v), List.mem_filter.mpr ⟨hmem, by simpa using hna⟩, rfl⟩

/-- The body of `evaluate_model` when a prediction is already cached: no
warning, the cached vector is scored, the report is stored and returned. -/
theorem evaluate_model_some (m : MlModel) (plot : Value) (p : List ℚ)
    (hp : m.y_pred = some p) :
    m.evaluate_model plot = .ok
      ({ m with report := some (classificationReport m.y_test p) },
       false, plot.isTrue, classificationReport m.y_test p) := by
  obtain ⟨fp, ty, tc, flz, tsz, kwz, dsz, xtr, xte, ytr, yte, mdl, ypz, rpz, lpz⟩ := m
  simp only at hp
  subst hp
  rfl

/-- The body of `evaluate_model` when no prediction is cached and the
classifier is fitted: a warning, a fresh test-split prediction, a report. -/
theorem evaluate_model_none (m : MlModel) (plot : Value)
    (hnone : m.y_pred = Option.none) (hfit : m.model.fitted = true) :
    m.evaluate_model plot = .ok
      ({ m with y_pred := some (m.x_test.map m.model.predictRow),
                report := some (classificationReport m.y_test
                  (m.x_test.map m.model.predictRow)) },
       true, plot.isTrue,
       classificationReport m.y_test (m.x_test.map m.model.predictRow)) := by
  obtain ⟨fp, ty, tc, flz, tsz, kwz, dsz, xtr, xte, ytr, yte, mdl, ypz, rpz, lpz⟩ := m
  obtain ⟨knd, prm, ftd, fX, fY⟩ := mdl
  simp only at hnone hfit
  subst hnone
  subst hfit
  rfl

/-- Claim C1: a `setup` call whose keyword mapping contains a key not among
the accepted parameter names of the current model kind fails with a
`ValueError` naming every offending key, and produces no new state (the
rejection is atomic: the error is raised before any field is written, so
`kwargs`, `model`, and `y_pred` are exactly as before the call). -/
theorem setup_rejects_invalid (m : MlModel) (kwargs : List (String × Value))
    (k : String) (hk : k ∈ kwargs.map Prod.fst)
    (hna : (acceptedParams m.model.kind).contains k = false) :
    m.setup kwargs = .error (.valueError ("Invalid kwargs found: " ++
        String.intercalate ", " (offendingKeys m kwargs))) ∧
    (∀ k', k' ∈ kwargs.map Prod.fst →
      (acceptedParams m.model.kind).contains k' = false →
      k' ∈ offendingKeys m kwargs) ∧
    (∀ m', m.setup kwargs ≠ .ok m') := by
  have hne : offendingKeys m kwargs ≠ [] := by
    intro hnil
    have := mem_offendingKeys m kwargs k hk hna
    rw [hnil] at this
    cases this
  have heq : m.setup kwargs = .error (.valueError ("Invalid kwargs found: " ++
      String.intercalate ", " (offendingKeys m kwargs))) := by
    unfold MlModel.setup
    rw [if_pos hne]
    rfl
  exact ⟨heq, fun k' h1 h2 => mem_offendingKeys m kwargs k' h1 h2,
    fun m' hok => by rw [heq] at hok; cases hok⟩

/-- Witness for C1 at the concrete unfit model and the key `bogus_param`. -/
theorem setup_rejects_invalid_witness :
    mW.setup [("bogus_param", .int 1)] = .error (.valueError
      ("Invalid kwargs found: " ++
        String.intercalate ", " (offendingKeys mW [("bogus_param", .int 1)]))) ∧
    (∀ k', k' ∈ [("bogus_param", Value.int 1)].map Prod.fst →
      (acceptedParams mW.model.kind).contains k' = false →
      k' ∈ offendingKeys mW [("bogus_param", .int 1)]) ∧
    (∀ m', mW.setup [("bogus_param", .int 1)] ≠ .ok m') :=
  setup_rejects_invalid mW [("bogus_param", .int 1)] "bogus_param"
    (by decide) (by decide)

/-- Claim C2, counterexample: the claim asserts that construction succeeds
for every test fraction strictly between 0 and 1, but at fraction 9/10 on
the five-row dataset the implied train split is empty (`ceil(9/10 * 5) =
5` test rows) and the external split raises its `ValueError`, so this
otherwise fully valid construction fails. -/
theorem construct_large_fraction_fails :
    (MlModel.init envW (.str "data.csv") (.str "RandomForest") (.str "label")
      (.list [.str "f1", .str "f2"]) (.float (mkRat 9 10))
      [("kwargs", [])]).isOk = false := by decide

/-- Claim C2, amended: for every valid input tuple (supported model kind,
readable dataset whose columns include the target and all features, string
target, list-of-strings features, test fraction strictly between 0 and 1,
accepted initial hyperparameters) whose test fraction additionally leaves
a nonempty train split (`ceil(t * n) < n`), construction succeeds, and the
train and test split sizes sum to the dataset row count with the test
share within `1/n` above the requested fraction. -/
theorem construct_valid_ok_split (e : Env) (fp mt tc : String) (fl : List Value)
    (t : ℚ) (outerKw : List (String × List (String × Value)))
    (kw : List (String × Value)) (ds : DataFrame) (c : Classifier)
    (hmt : mt ∈ VALID_MODELS)
    (hfile : e.readCsv fp = some ds)
    (hfl : ∀ v ∈ fl, v.isStr = true)
    (ht0 : 0 < t) (ht1 : t < 1)
    (hkw : outerKw.lookup "kwargs" = some kw)
    (hsel : ∀ s ∈ strNames fl, ds.columns.contains s = true)
    (htc : ds.columns.contains tc = true)
    (hcl : initializeModel mt kw = .ok c)
    (hn : 0 < ds.rows.length)
    (hsp : nTestOf ds.rows.length t < ds.rows.length) :
    ∃ m, MlModel.init e (.str fp) (.str mt) (.str tc) (.list fl) (.float t) outerKw
        = .ok m ∧
      m.x_train.length + m.x_test.length = ds.rows.length ∧
      t ≤ (m.x_test.length : ℚ) / (ds.rows.length : ℚ) ∧
      (m.x_test.length : ℚ) / (ds.rows.length : ℚ) < t + 1 / (ds.rows.length : ℚ) := by
  refine ⟨_, init_ok e fp mt tc fl t outerKw kw ds c hmt hfile hfl ht0 ht1 hkw hsel htc hcl hsp, ?_, ?_, ?_⟩
  case _ =>
    simp only [pick_length, List.length_drop, List.length_take, splitPerm_length]
    omega
  case _ =>
    obtain ⟨hb1, hb2⟩ := nTestOf_rat_bounds ds.rows.length t ht0
    have hnQ : (0:ℚ) < (ds.rows.length : ℚ) := by exact_mod_cast hn
    have hlen : (pick ((splitPerm 42 ds.rows.length).take (nTestOf ds.rows.length t)) (featureMatrix ds (strNames fl))).length = nTestOf ds.rows.length t := by
      simp only [pick_length, List.length_take, splitPerm_length]
      omega
    simp only [hlen]
    rw [le_div_iff₀ hnQ]
    exact hb1
  case _ =>
    obtain ⟨hb1, hb2⟩ := nTestOf_rat_bounds ds.rows.length t ht0
    have hnQ : (0:ℚ) < (ds.rows.length : ℚ) := by exact_mod_cast hn
    have hlen : (pick ((splitPerm 42 ds.rows.length).take (nTestOf ds.rows.length t)) (featureMatrix ds (strNames fl))).length = nTestOf ds.rows.length t := by
      simp only [pick_length, List.length_take, splitPerm_length]
      omega
    simp only [hlen]
    rw [div_lt_iff₀ hnQ]
    have hexp : (t + 1 / (ds.rows.length:ℚ)) * (ds.rows.length:ℚ)
        = t * (ds.rows.length:ℚ) + 1 := by
      field_simp
    rw [hexp]
    exact hb2

/-- Witness for the amended C2 at the concrete five-row dataset with
`test_size` 1/5 (one test row, four train rows). -/
theorem construct_valid_ok_split_witness :
    ∃ m, MlModel.init envW (.str "data.csv") (.str "RandomForest") (.str "label")
        (.list [.str "f1", .str "f2"]) (.float (mkRat 1 5)) [("kwargs", [])]
        = .ok m ∧
      m.x_train.length + m.x_test.length = dfW.rows.length ∧
      mkRat 1 5 ≤ (m.x_test.length : ℚ) / (dfW.rows.length : ℚ) ∧
      (m.x_test.length : ℚ) / (dfW.rows.length : ℚ)
        < mkRat 1 5 + 1 / (dfW.rows.length : ℚ) :=
  construct_valid_ok_split envW "data.csv" "RandomForest" "label"
    [.str "f1", .str "f2"] (mkRat 1 5) [("kwargs", [])] [] dfW
    ⟨.randomForest, [], false, [], []⟩ (by decide) rfl (by decide) (by decide)
    (by decide) rfl (by decide) (by decide) rfl (by decide) (by decide)

/-- Claim C3, counterexample: the claim states that every non-boolean value
supplied as the show-report flag makes `evaluate_model` fail with a type
error; in the code the flag is the keyword-only parameter `plot` and its
value is never type-checked, so the call with `plot=2` succeeds. -/
theorem evaluate_model_nonbool_flag_accepted :
    (mWfit.evaluateModelCall [("plot", .int 2)]).isOk = true := by decide

/-- Claim C3, amended: the show-report flag of `evaluate_model` is the
keyword-only parameter `plot`; a call supplying any other keyword (such as
the `show=2` of the test) fails with a `TypeError` regardless of the value,
while a call supplying `plot` succeeds for a value of any type and prints
the report only when the value is the boolean `True`. -/
theorem evaluateModelCall_flag_contract (m : MlModel) (v : Value) (p : List ℚ)
    (hp : m.y_pred = some p) :
    (∀ key, key ≠ "plot" →
      m.evaluateModelCall [(key, v)] =
        .error (.typeError "evaluate_model() got an unexpected keyword argument")) ∧
    m.evaluateModelCall [("plot", v)] = .ok
      ({ m with report := some (classificationReport m.y_test p) },
       false, v.isTrue, classificationReport m.y_test p) := by
  constructor
  · intro key hkey
    unfold MlModel.evaluateModelCall
    rw [if_pos]
    · rfl
    · simp [hkey]
  · unfold MlModel.evaluateModelCall
    rw [if_neg]
    · exact evaluate_model_some m v p hp
    · simp

/-- Witness for the amended C3 at the fitted model and the value `2`. -/
theorem evaluateModelCall_flag_contract_witness :
    (∀ key, key ≠ "plot" →
      mWfit.evaluateModelCall [(key, Value.int 2)] =
        .error (.typeError "evaluate_model() got an unexpected keyword argument")) ∧
    mWfit.evaluateModelCall [("plot", Value.int 2)] = .ok
      ({ mWfit with report := some (classificationReport mWfit.y_test [1]) },
       false, (Value.int 2).isTrue, classificationReport mWfit.y_test [1]) :=
  evaluateModelCall_flag_contract mWfit (.int 2) [1] (by decide)

/-- Claim C4: a constructed but never-`setup` manager predicts with the
unfit underlying classifier, and the call fails with the not-fitted error
instead of returning a prediction vector. -/
theorem predict_unfitted (e : Env) (fp mt tc fl ts : Value)
    (outerKw : List (String × List (String × Value))) (m : MlModel)
    (data : List (List ℚ))
    (h : MlModel.init e fp mt tc fl ts outerKw = .ok m) :
    m.predict data = .error .notFitted := by
  obtain ⟨hfit, -, -⟩ := init_inv e fp mt tc fl ts outerKw m h
  obtain ⟨fpz, ty, tcz, flz, tsz, kwz, dsz, xtr, xte, ytr, yte, mdl, ypz, rpz, lpz⟩ := m
  obtain ⟨knd, prm, ftd, fX, fY⟩ := mdl
  simp only at hfit
  subst hfit
  rfl

/-- Witness for C4 at the freshly constructed concrete model. -/
theorem predict_unfitted_witness :
    mW.predict [[1, 2]] = .error .notFitted :=
  predict_unfitted envW (.str "data.csv") (.str "RandomForest") (.str "label")
    (.list [.str "f1", .str "f2"]) (.float (mkRat 1 5)) [("kwargs", [])] mW
    [[1, 2]] rfl

/-- Claim C5: construction is deterministic — two constructions from
identical inputs (same environment, path, model kind, target, features and
test fraction, hence the same fixed seed 42) hold identical train and test
splits. -/
theorem construct_deterministic (e : Env) (fp mt tc fl ts : Value)
    (outerKw : List (String × List (String × Value))) (m1 m2 : MlModel)
    (h1 : MlModel.init e fp mt tc fl ts outerKw = .ok m1)
    (h2 : MlModel.init e fp mt tc fl ts outerKw = .ok m2) :
    m1.x_train = m2.x_train ∧ m1.x_test = m2.x_test ∧
    m1.y_train = m2.y_train ∧ m1.y_test = m2.y_test := by
  rw [h1] at h2
  cases h2
  exact ⟨rfl, rfl, rfl, rfl⟩

/-- Witness for C5: two identical concrete constructions share the splits. -/
theorem construct_deterministic_witness :
    mW.x_train = mW.x_train ∧ mW.x_test = mW.x_test ∧
    mW.y_train = mW.y_train ∧ mW.y_test = mW.y_test :=
  construct_deterministic envW (.str "data.csv") (.str "RandomForest")
    (.str "label") (.list [.str "f1", .str "f2"]) (.float (mkRat 1 5))
    [("kwargs", [])] mW mW rfl rfl

/-- Claim C6, counterexample: the claim states that construction with an
empty feature list fails with an invalid-feature-list error; in the code
`__verify_input` only checks that the features are a list of strings and
never checks emptiness, so the concrete construction with `[]` succeeds. -/
theorem construct_empty_features_accepted :
    (MlModel.init envW (.str "data.csv") (.str "RandomForest") (.str "label")
      (.list []) (.float (mkRat 1 5)) [("kwargs", [])]).isOk = true := by decide

/-- Claim C6, amended: construction requires the feature columns to be a
list whose elements are all strings, but does not reject an empty list —
with otherwise valid inputs whose test fraction leaves a nonempty train
split, construction with `[]` succeeds. -/
theorem construct_empty_features_ok (e : Env) (fp mt tc : String) (t : ℚ)
    (outerKw : List (String × List (String × Value)))
    (kw : List (String × Value)) (ds : DataFrame) (c : Classifier)
    (hmt : mt ∈ VALID_MODELS)
    (hfile : e.readCsv fp = some ds)
    (ht0 : 0 < t) (ht1 : t < 1)
    (hkw : outerKw.lookup "kwargs" = some kw)
    (htc : ds.columns.contains tc = true)
    (hcl : initializeModel mt kw = .ok c)
    (hsp : nTestOf ds.rows.length t < ds.rows.length) :
    ∃ m, MlModel.init e (.str fp) (.str mt) (.str tc) (.list []) (.float t)
        outerKw = .ok m :=
  ⟨_, init_ok e fp mt tc [] t outerKw kw ds c hmt hfile (by simp) ht0 ht1 hkw
    (by simp [strNames]) htc hcl hsp⟩

/-- Witness for the amended C6 at the concrete dataset. -/
theorem construct_empty_features_ok_witness :
    ∃ m, MlModel.init envW (.str "data.csv") (.str "RandomForest") (.str "label")
        (.list []) (.float (mkRat 1 5)) [("kwargs", [])] = .ok m :=
  construct_empty_features_ok envW "data.csv" "RandomForest" "label"
    (mkRat 1 5) [("kwargs", [])] [] dfW ⟨.randomForest, [], false, [], []⟩
    (by decide) rfl (by decide) (by decide) rfl (by decide) rfl (by decide)

/-- Claim C7: on a manager with a fitted classifier, `evaluate_model` with
an empty prediction cache emits the warning, recomputes the cache by
predicting on the test split, and stores and returns the report computed
from that recomputed prediction; with a non-empty cache it emits no
warning and scores the existing cached prediction. -/
theorem evaluate_model_fallback (m : MlModel) (plot : Value) :
    (m.y_pred = Option.none → m.model.fitted = true →
      m.evaluate_model plot = .ok
        ({ m with y_pred := some (m.x_test.map m.model.predictRow),
                  report := some (classificationReport m.y_test
                    (m.x_test.map m.model.predictRow)) },
         true, plot.isTrue,
         classificationReport m.y_test (m.x_test.map m.model.predictRow))) ∧
    (∀ p, m.y_pred = some p →
      m.evaluate_model plot = .ok
        ({ m with report := some (classificationReport m.y_test p) },
         false, plot.isTrue, classificationReport m.y_test p)) :=
  ⟨fun hnone hfit => evaluate_model_none m plot hnone hfit,
   fun p hp => evaluate_model_some m plot p hp⟩

/-- Witness for C7: the fitted concrete model with a cleared cache warns
and recomputes; with its cache in place it does not warn. -/
theorem evaluate_model_fallback_witness :
    mWfitNoPred.evaluate_model (.bool false) = .ok
      ({ mWfitNoPred with
          y_pred := some (mWfitNoPred.x_test.map mWfitNoPred.model.predictRow),
          report := some (classificationReport mWfitNoPred.y_test
            (mWfitNoPred.x_test.map mWfitNoPred.model.predictRow)) },
       true, (Value.bool false).isTrue,
       classificationReport mWfitNoPred.y_test
         (mWfitNoPred.x_test.map mWfitNoPred.model.predictRow)) ∧
    mWfit.evaluate_model (.bool false) = .ok
      ({ mWfit with report := some (classificationReport mWfit.y_test [1]) },
       false, (Value.bool false).isTrue, classificationReport mWfit.y_test [1]) :=
  ⟨(evaluate_model_fallback mWfitNoPred (.bool false)).1 rfl (by decide),
   (evaluate_model_fallback mWfit (.bool false)).2 [1] (by decide)⟩

/-- Claim C8: saving a manager and loading the archive reconstructs an
instance whose `predict` behaves identically to the pre-save instance on
every input (the underlying prediction is deterministic, so the round
trip preserves predictive behaviour exactly). -/
theorem save_load_roundtrip_predict (m : MlModel) (data : List (List ℚ)) :
    (load_model (save_model m)).predict data = m.predict data := rfl

/-- Claim C9: on a fitted manager, `predict` returns a vector equal to the
one it stores in the last-prediction cache, although the underlying
predict runs twice — the equality holds because the embedded external
predict is deterministic across the two invocations. -/
theorem predict_cache_matches_return (m : MlModel) (data : List (List ℚ))
    (hfit : m.model.fitted = true) :
    ∃ v, m.predict data = .ok ({ m with last_prediction := some v }, v) := by
  refine ⟨data.map m.model.predictRow, ?_⟩
  obtain ⟨fp, ty, tc, flz, tsz, kwz, dsz, xtr, xte, ytr, yte, mdl, ypz, rpz, lpz⟩ := m
  obtain ⟨knd, prm, ftd, fX, fY⟩ := mdl
  simp only at hfit
  subst hfit
  rfl

/-- Witness for C9 at the fitted concrete model and one external row. -/
theorem predict_cache_matches_return_witness :
    ∃ v, mWfit.predict [[9, 9]] = .ok ({ mWfit with last_prediction := some v }, v) :=
  predict_cache_matches_return mWfit [[9, 9]] (by decide)

/-- Claim C10: a successful `predict` call changes only the
last-prediction field — `y_pred`, the stored report, the classifier and
the splits are untouched — so a subsequent `evaluate_model` still scores
the test-split prediction cached by the most recent `setup` call. -/
theorem predict_frame (m : MlModel) (data : List (List ℚ)) (m' : MlModel)
    (v : List ℚ) (h : m.predict data = .ok (m', v)) :
    m' = { m with last_prediction := some v } ∧
    m'.y_pred = m.y_pred ∧ m'.report = m.report ∧ m'.model = m.model ∧
    m'.x_test = m.x_test ∧ m'.y_test = m.y_test ∧
    (∀ p, m.y_pred = some p →
      m'.evaluate_model (.bool false) = .ok
        ({ m' with report := some (classificationReport m.y_test p) },
         false, false, classificationReport m.y_test p)) := by
  obtain ⟨fp, ty, tc, flz, tsz, kwz, dsz, xtr, xte, ytr, yte, mdl, ypz, rpz, lpz⟩ := m
  obtain ⟨knd, prm, ftd, fX, fY⟩ := mdl
  cases ftd with
  | false => cases h
  | true =>
      cases h
      refine ⟨rfl, rfl, rfl, rfl, rfl, rfl, ?_⟩
      intro p hp
      simp only at hp
      subst hp
      rfl

/-- Witness for C10 at the fitted concrete model and one external row. -/
theorem predict_frame_witness :
    mWpred = { mWfit with last_prediction := some vW } ∧
    mWpred.y_pred = mWfit.y_pred ∧ mWpred.report = mWfit.report ∧
    mWpred.model = mWfit.model ∧ mWpred.x_test = mWfit.x_test ∧
    mWpred.y_test = mWfit.y_test ∧
    (∀ p, mWfit.y_pred = some p →
      mWpred.evaluate_model (.bool false) = .ok
        ({ mWpred with report := some (classificationReport mWfit.y_test p) },
         false, false, classificationReport mWfit.y_test p)) :=
  predict_frame mWfit [[9, 9]] mWpred vW rfl

end LandslideML
